import Mathlib

/-!
Verification of the `shush-rs` secret-container library (`src/lib.rs`).

The library wraps a heap value in `SecretBox<S>`. Construction (`SecretBox::new`)
computes a page-aligned range around the boxed value and issues, on Linux,
`madvise(MADV_DONTDUMP)` followed by `mlock`. Destruction (`Drop`) issues
`madvise(MADV_DODUMP)`, then `munlock`, then `self.zeroize()`; the `Box` field is
deallocated after `drop` returns. `expose_secret` / `expose_secret_mut` build
`SecretGuard` / `SecretGuardMut`, plain reference wrappers with no `Drop` impl
and no OS calls. The code never calls `mprotect` or any page-protection
primitive.

We embed the address arithmetic exactly (usize modelled as Nat with an explicit
2^64 modulus where the source can wrap), the OS-call sequences of construction
and destruction as event traces, and the container/guard values as a pure
functional model.
-/

/-- Width modulus of `usize` on the 64-bit targets the crate supports. -/
def USIZE : Nat := 2 ^ 64

/-- Bitwise complement of `page_size - 1` as a 64-bit `usize`: the source
writes `!(page_size - 1)`; for `x < 2^64` the 64-bit complement of `x` is
`2^64 - 1 - x`. -/
def pageMask (pageSize : Nat) : Nat := (USIZE - 1) - (pageSize - 1)

/-- Embeds `let start = (secret_ptr as usize) & !(page_size - 1);`
(src/lib.rs lines 55 and 107): the address rounded down to a page boundary. -/
def alignStart (addr pageSize : Nat) : Nat := addr &&& pageMask pageSize

/-- Embeds `let end = ((secret_ptr as usize) + len + page_size - 1) & !(page_size - 1);`
(src/lib.rs lines 56 and 108). The `usize` addition may wrap, hence the
explicit modulus. -/
def alignEnd (addr len pageSize : Nat) : Nat :=
  ((addr + len + pageSize - 1) % USIZE) &&& pageMask pageSize

/-- Embeds `let aligned_len = end - start;` (src/lib.rs lines 57 and 109). -/
def alignedLen (addr len pageSize : Nat) : Nat :=
  alignEnd addr len pageSize - alignStart addr pageSize

/-- Page-protection modes of the spec's state machine. The OS call that would
change a region's protection is `mprotect`; the source never invokes it, but
the mode type is needed to state protection properties. -/
inductive Prot where
  | noAccess
  | readOnly
  | readWrite
deriving DecidableEq

/-- OS-level calls (and the final deallocation) that the container's lifecycle
can perform on its region, in the order they are issued. `mprotect` is included
as the only call that changes a region's protection; the source code contains
no call site for it. -/
inductive Event where
  | madviseDontDump (start len : Nat)
  | madviseDoDump (start len : Nat)
  | mlock (start len : Nat)
  | munlock (start len : Nat)
  | mprotect (start len : Nat) (mode : Prot)
  | zeroizeFull (len : Nat)
  | dealloc
deriving DecidableEq

/-- True exactly on events that change a region's page protection. -/
def Event.isProtChange : Event → Bool
  | .mprotect _ _ _ => true
  | _ => false

/-- True exactly on the unpin (`munlock`) event. -/
def Event.isMunlock : Event → Bool
  | .munlock _ _ => true
  | _ => false

/-- True exactly on the wipe (`zeroize`) event. -/
def Event.isZeroize : Event → Bool
  | .zeroizeFull _ => true
  | _ => false

/-- True exactly on the dump-reinclusion (`madvise(MADV_DODUMP)`) event. -/
def Event.isDoDump : Event → Bool
  | .madviseDoDump _ _ => true
  | _ => false

/-- True exactly on the deallocation event. -/
def Event.isDealloc : Event → Bool
  | .dealloc => true
  | _ => false

/-- Protection of a region after one event: only an `mprotect` call changes it. -/
def protStep (m : Prot) : Event → Prot
  | .mprotect _ _ q => q
  | _ => m

/-- Protection of a region after a trace of events, starting from `init`
(freshly allocated heap memory starts in the platform default, read-write). -/
def protAfter (init : Prot) (tr : List Event) : Prot := tr.foldl protStep init

/-- OS calls issued by `SecretBox::new` (src/lib.rs lines 92-133, unix/Linux
path) for a value at `addr` of size `len`: `madvise(MADV_DONTDUMP)` on the
aligned region, then `mlock` on it. A failing call panics before `new`
returns, so a constructor that returns performed exactly this trace. -/
def newEvents (addr len pageSize : Nat) : List Event :=
  [Event.madviseDontDump (alignStart addr pageSize) (alignedLen addr len pageSize),
   Event.mlock (alignStart addr pageSize) (alignedLen addr len pageSize)]

/-- OS calls performed by `expose_secret` / `expose_secret_mut`
(src/lib.rs lines 196-204): their bodies only build a `SecretGuard` /
`SecretGuardMut` from a reference; no OS call occurs. -/
def exposeEvents : List Event := []

/-- OS calls performed when a guard is released: `SecretGuard` and
`SecretGuardMut` (src/lib.rs lines 206-267) have no `Drop` impl, so dropping
a guard performs nothing. -/
def guardReleaseEvents : List Event := []

/-- Trace of `<SecretBox as Drop>::drop` (src/lib.rs lines 40-80, Linux path)
followed by the deallocation of the `Box` field, which happens after `drop`
returns. `madviseOk` and `munlockOk` are the results of the two fallible OS
calls; a failure panics at that point (`none`: the teardown does not complete).
The page-size query is assumed to succeed (its failure also panics, before any
event). On success the calls are: `madvise(MADV_DODUMP)`, `munlock`,
`self.zeroize()` (wiping the full `len`-byte value), then deallocation. -/
def dropRun (addr len pageSize : Nat) (madviseOk munlockOk : Bool) :
    Option (List Event) :=
  let s := alignStart addr pageSize
  let al := alignedLen addr len pageSize
  if madviseOk then
    if munlockOk then
      some [Event.madviseDoDump s al, Event.munlock s al,
            Event.zeroizeFull len, Event.dealloc]
    else none
  else none

/-- Functional model of `SecretBox<S>` (src/lib.rs lines 30-32): it owns the
boxed secret value. -/
structure SecretBox (S : Type) where
  inner_secret : S

/-- Functional model of `SecretGuard<S>` (src/lib.rs lines 206-213): a wrapper
around a shared reference to the secret. -/
structure SecretGuard (S : Type) where
  data : S
deriving DecidableEq

/-- Functional model of `SecretGuardMut<S>` (src/lib.rs lines 226-233): a
wrapper around a mutable reference to the secret. -/
structure SecretGuardMut (S : Type) where
  data : S
deriving DecidableEq

/-- Value content of `SecretBox::new` (src/lib.rs lines 92-133): pins and
dump-excludes the region (see `newEvents`) and takes ownership of the boxed
value unchanged. -/
def SecretBox.new {S : Type} (boxed_secret : S) : SecretBox S :=
  { inner_secret := boxed_secret }

/-- Embeds `SecretGuard::new` (src/lib.rs lines 255-260). -/
def SecretGuard.new {S : Type} (data : S) : SecretGuard S := { data := data }

/-- Embeds `SecretGuardMut::new` (src/lib.rs lines 262-267). -/
def SecretGuardMut.new {S : Type} (data : S) : SecretGuardMut S :=
  { data := data }

/-- Embeds `expose_secret` (src/lib.rs lines 197-199): builds a `SecretGuard`
from a reference to the inner secret; no OS call, no protection change. -/
def SecretBox.expose_secret {S : Type} (sb : SecretBox S) : SecretGuard S :=
  SecretGuard.new sb.inner_secret

/-- Embeds `expose_secret_mut` (src/lib.rs lines 201-203). -/
def SecretBox.expose_secret_mut {S : Type} (sb : SecretBox S) :
    SecretGuardMut S :=
  SecretGuardMut.new sb.inner_secret

/-- Embeds the `Default` impl (src/lib.rs lines 174-179):
`SecretBox::new(Box::<S>::default())`. -/
def SecretBox.default {S : Type} [Inhabited S] : SecretBox S :=
  SecretBox.new (Inhabited.default : S)

/-- Embeds `new_with_mut` (src/lib.rs lines 138-142): builds the default
container, then runs the caller's initializer on the secret through a mutable
guard. The Rust initializer mutates through `&mut S`; it is modelled as the
state function `ctr : S → S`. -/
def SecretBox.new_with_mut {S : Type} [Inhabited S] (ctr : S → S) :
    SecretBox S :=
  let secret := SecretBox.default
  { secret with inner_secret := ctr secret.expose_secret_mut.data }

/-- Construction-phase events of the constructor-function variants: the
caller's function builds a local value, `Self::new(Box::new(data.clone()))`
copies it into the pinned container, `data.zeroize()` wipes the local. -/
inductive CEvent where
  | buildLocal
  | pinAndCopy
  | wipeLocal
deriving DecidableEq

/-- True exactly on the copy-into-container step. -/
def CEvent.isPinAndCopy : CEvent → Bool
  | .pinAndCopy => true
  | _ => false

/-- True exactly on the local-wipe step. -/
def CEvent.isWipeLocal : CEvent → Bool
  | .wipeLocal => true
  | _ => false

/-- Embeds `new_with_ctr` (src/lib.rs lines 154-159): `let mut data = ctr();`
then `Self::new(Box::new(data.clone()))`, then `data.zeroize()`. Returns the
container together with the ordered construction events. Cloning a value is
the identity on its content. -/
def SecretBox.new_with_ctr {S : Type} (ctr : Unit → S) :
    SecretBox S × List CEvent :=
  let data := ctr ()
  (SecretBox.new data, [CEvent.buildLocal, CEvent.pinAndCopy, CEvent.wipeLocal])

/-- Embeds `try_new_with_ctr` (src/lib.rs lines 166-171):
`let mut data = ctr()?;` propagates an error immediately (no local secret
value was built, nothing to wipe); on success the remaining steps are those of
`new_with_ctr`. -/
def SecretBox.try_new_with_ctr {S E : Type} (ctr : Unit → Except E S) :
    Except E (SecretBox S × List CEvent) :=
  match ctr () with
  | Except.error e => Except.error e
  | Except.ok data =>
      Except.ok (SecretBox.new data,
        [CEvent.buildLocal, CEvent.pinAndCopy, CEvent.wipeLocal])

/-- Embeds the `Debug` impl for `SecretBox` (src/lib.rs lines 181-185):
`write!(f, "SecretBox<{}>([REDACTED])", any::type_name::<S>())`. `typeName`
stands for `any::type_name::<S>()`; the formatter ignores the box's content. -/
def SecretBox.fmt {S : Type} (typeName : String) (_sb : SecretBox S) : String :=
  "SecretBox<" ++ typeName ++ ">([REDACTED])"

/-- Embeds the derived `Debug` impl for `SecretGuard` (src/lib.rs line 207):
`derive(Debug)` on a struct with field `data` prints the struct name and the
field's own `Debug` output. `dbgS` stands for the `Debug` formatting of `S`. -/
def SecretGuard.fmt {S : Type} (dbgS : S → String) (g : SecretGuard S) :
    String :=
  "SecretGuard \x7b data: " ++ dbgS g.data ++ " \x7d"

/-- Embeds the derived `Debug` impl for `SecretGuardMut` (src/lib.rs line 227). -/
def SecretGuardMut.fmt {S : Type} (dbgS : S → String) (g : SecretGuardMut S) :
    String :=
  "SecretGuardMut \x7b data: " ++ dbgS g.data ++ " \x7d"

/-- Helper: the 64-bit mask `!(p-1)` for a power-of-two page size `2^k`. -/
theorem pageMask_two_pow {k : Nat} (hk : k ≤ 64) :
    pageMask (2 ^ k) = 2 ^ 64 - 2 ^ k := by
  have h1 : 0 < 2 ^ k := Nat.two_pow_pos k
  have h2 : 2 ^ k ≤ 2 ^ 64 := Nat.pow_le_pow_right (by omega) hk
  simp only [pageMask, USIZE]
  omega

/-- Helper: masking with the high bits `2^64 - 2^k` clears the low `k` bits,
i.e. rounds down to a multiple of `2^k`, for 64-bit inputs. -/
theorem land_high_mask (x k : Nat) (hk : k ≤ 64) (hx : x < 2 ^ 64) :
    x &&& (2 ^ 64 - 2 ^ k) = 2 ^ k * (x / 2 ^ k) := by
  have hmask : 2 ^ 64 - 2 ^ k = 2 ^ k * (2 ^ (64 - k) - 1) := by
    have h2 : 2 ^ k * 2 ^ (64 - k) = 2 ^ 64 := by
      rw [← pow_add]
      congr 1
      omega
    rw [Nat.mul_sub_left_distrib, h2, Nat.mul_one]
  rw [hmask]
  apply Nat.eq_of_testBit_eq
  intro i
  rw [Nat.testBit_and, Nat.testBit_mul_pow_two, Nat.testBit_mul_pow_two,
      Nat.testBit_two_pow_sub_one]
  have hdiv : ∀ j, Nat.testBit (x / 2 ^ k) j = Nat.testBit x (k + j) := by
    intro j
    rw [← Nat.shiftRight_eq_div_pow, Nat.testBit_shiftRight]
  rw [hdiv]
  by_cases hik : k ≤ i
  · by_cases hi64 : i < 64
    · have e1 : i - k < 64 - k := by omega
      have e2 : k + (i - k) = i := by omega
      simp [hik, e1, e2]
    · have e1 : ¬ i - k < 64 - k := by omega
      have hxi : Nat.testBit x i = false :=
        Nat.testBit_lt_two_pow
          (lt_of_lt_of_le hx (Nat.pow_le_pow_right (by omega) (by omega)))
      have e2 : k + (i - k) = i := by omega
      simp [hik, e1, e2, hxi]
  · simp [hik]

/-- Helper: closed form of `alignStart` for a power-of-two page size. -/
theorem alignStart_eq (a k : Nat) (hk : k ≤ 64) (ha : a < USIZE) :
    alignStart a (2 ^ k) = 2 ^ k * (a / 2 ^ k) := by
  rw [alignStart, pageMask_two_pow hk]
  exact land_high_mask a k hk ha

/-- Helper: closed form of `alignEnd` for a power-of-two page size when the
sum does not wrap. -/
theorem alignEnd_eq (a l k : Nat) (hk : k ≤ 64)
    (hnov : a + l + 2 ^ k - 1 < USIZE) :
    alignEnd a l (2 ^ k) = 2 ^ k * ((a + l + 2 ^ k - 1) / 2 ^ k) := by
  rw [alignEnd, pageMask_two_pow hk, Nat.mod_eq_of_lt hnov]
  exact land_high_mask _ k hk hnov

/-- C4: for every address `a`, length `l ≥ 1`, and power-of-two page size
`2^k` (with the sum `a + l + 2^k - 1` not wrapping around `usize`), the
alignment computation returns a start that is at most `a`, an end that is at
least `a + l`, and both bounds are exact multiples of the page size. -/
theorem c4_align_correct (a l k : Nat) (hk : k ≤ 64) (hl : 1 ≤ l)
    (hnov : a + l + 2 ^ k - 1 < USIZE) :
    alignStart a (2 ^ k) ≤ a ∧
    a + l ≤ alignEnd a l (2 ^ k) ∧
    2 ^ k ∣ alignStart a (2 ^ k) ∧
    2 ^ k ∣ alignEnd a l (2 ^ k) := by
  have hp : 0 < 2 ^ k := Nat.two_pow_pos k
  have ha : a < USIZE := by
    simp only [USIZE] at hnov ⊢
    omega
  have hs := alignStart_eq a k hk ha
  have he := alignEnd_eq a l k hk hnov
  refine ⟨?_, ?_, ?_, ?_⟩
  · rw [hs, Nat.mul_comm]
    exact Nat.div_mul_le_self a (2 ^ k)
  · rw [he]
    have hdm := Nat.div_add_mod (a + l + 2 ^ k - 1) (2 ^ k)
    have hmlt : (a + l + 2 ^ k - 1) % 2 ^ k < 2 ^ k :=
      Nat.mod_lt _ hp
    omega
  · rw [hs]
    exact Dvd.intro _ rfl
  · rw [he]
    exact Dvd.intro _ rfl

/-- C4 witness: the alignment properties at address 5000, length 100, page
size 4096. -/
theorem c4_align_correct_witness :
    (12 ≤ 64 ∧ 1 ≤ 100 ∧ 5000 + 100 + 2 ^ 12 - 1 < USIZE) ∧
    (alignStart 5000 (2 ^ 12) ≤ 5000 ∧
     5000 + 100 ≤ alignEnd 5000 100 (2 ^ 12) ∧
     2 ^ 12 ∣ alignStart 5000 (2 ^ 12) ∧
     2 ^ 12 ∣ alignEnd 5000 100 (2 ^ 12)) :=
  ⟨⟨by decide, by decide, by decide⟩,
   c4_align_correct 5000 100 12 (by decide) (by decide) (by decide)⟩

/-- C1 counterexample: immediately after `SecretBox::new` returns (address
4096, value size 8, page size 4096), the allocation's protection is still the
heap default read-write, not no-access: the constructor performs no
protection change. -/
theorem c1_counterexample :
    protAfter Prot.readWrite (newEvents 4096 8 4096) = Prot.readWrite ∧
    Prot.readWrite ≠ Prot.noAccess := by
  decide

/-- C1 amended: the container never changes page protection. The constructor's
trace contains no protection-changing call (it only excludes from dumps and
mlocks), `expose_secret` / `expose_secret_mut` perform no OS call, and guard
release performs no OS call; consequently the protection state after
construction, after exposing, and after guard release is whatever it was
before (the heap default), and no transition to no-access, read-only or
read-write is ever made by the library. -/
theorem c1_no_protection_changes (init : Prot) (addr len pageSize : Nat) :
    protAfter init (newEvents addr len pageSize) = init ∧
    (newEvents addr len pageSize).all (fun e => !e.isProtChange) = true ∧
    exposeEvents = ([] : List Event) ∧
    guardReleaseEvents = ([] : List Event) ∧
    protAfter init exposeEvents = init ∧
    protAfter init guardReleaseEvents = init :=
  ⟨rfl, rfl, rfl, rfl, rfl, rfl⟩

/-- C2 counterexample: in the teardown trace at address 4096, size 8, page
size 4096, the wipe (`zeroize`) comes after the unpin (`munlock`) and after
the dump-reinclusion (`madvise(MADV_DODUMP)`), contradicting the claimed
order (wipe first); and no protection-restoring call occurs at all. -/
theorem c2_counterexample :
    dropRun 4096 8 4096 true true =
      some [Event.madviseDoDump 4096 4096, Event.munlock 4096 4096,
            Event.zeroizeFull 8, Event.dealloc] ∧
    ¬ ((dropRun 4096 8 4096 true true).getD []).findIdx Event.isZeroize <
      ((dropRun 4096 8 4096 true true).getD []).findIdx Event.isMunlock ∧
    ¬ ((dropRun 4096 8 4096 true true).getD []).findIdx Event.isZeroize <
      ((dropRun 4096 8 4096 true true).getD []).findIdx Event.isDoDump ∧
    ((dropRun 4096 8 4096 true true).getD []).all
      (fun e => !e.isProtChange) = true := by
  decide

/-- C2 amended: destruction performs the teardown steps in this order: first
mark the region included-in-dumps again (`madvise(MADV_DODUMP)`), then unpin
(`munlock`), then wipe the secret's bytes (`zeroize` of the full value), then
deallocate; no protection-restoration step exists because the code never
changes page protection. In particular the wipe happens after the unpin and
after the dump-inclusion reversal. -/
theorem c2_teardown_order (addr len pageSize : Nat) :
    dropRun addr len pageSize true true =
      some [Event.madviseDoDump (alignStart addr pageSize)
              (alignedLen addr len pageSize),
            Event.munlock (alignStart addr pageSize)
              (alignedLen addr len pageSize),
            Event.zeroizeFull len, Event.dealloc] :=
  rfl

/-- C3: whenever the teardown completes (for any address, value size, page
size, and any outcomes of the fallible OS calls that let it complete), the
trace contains exactly one wipe event, that wipe covers the full `len`-byte
contained value, and it occurs before the allocation is deallocated. -/
theorem c3_wipe_once_before_dealloc (addr len pageSize : Nat)
    (madviseOk munlockOk : Bool) (tr : List Event)
    (h : dropRun addr len pageSize madviseOk munlockOk = some tr) :
    tr.countP Event.isZeroize = 1 ∧
    Event.zeroizeFull len ∈ tr ∧
    Event.dealloc ∈ tr ∧
    tr.findIdx Event.isZeroize < tr.findIdx Event.isDealloc := by
  cases madviseOk with
  | false => simp [dropRun] at h
  | true =>
    cases munlockOk with
    | false => simp [dropRun] at h
    | true =>
      simp only [dropRun, if_true, Option.some.injEq] at h
      subst h
      refine ⟨rfl, ?_, ?_, ?_⟩
      · simp
      · simp
      · show (2 : Nat) < 3
        decide

/-- C3 witness: the wipe-once-before-dealloc property at address 4096, value
size 8, page size 4096, with both OS calls succeeding. -/
theorem c3_wipe_once_before_dealloc_witness :
    dropRun 4096 8 4096 true true =
      some [Event.madviseDoDump 4096 4096, Event.munlock 4096 4096,
            Event.zeroizeFull 8, Event.dealloc] ∧
    ([Event.madviseDoDump 4096 4096, Event.munlock 4096 4096,
      Event.zeroizeFull 8, Event.dealloc].countP Event.isZeroize = 1 ∧
     Event.zeroizeFull 8 ∈
       [Event.madviseDoDump 4096 4096, Event.munlock 4096 4096,
        Event.zeroizeFull 8, Event.dealloc] ∧
     Event.dealloc ∈
       [Event.madviseDoDump 4096 4096, Event.munlock 4096 4096,
        Event.zeroizeFull 8, Event.dealloc] ∧
     [Event.madviseDoDump 4096 4096, Event.munlock 4096 4096,
      Event.zeroizeFull 8, Event.dealloc].findIdx Event.isZeroize <
       [Event.madviseDoDump 4096 4096, Event.munlock 4096 4096,
        Event.zeroizeFull 8, Event.dealloc].findIdx Event.isDealloc) :=
  ⟨by decide,
   c3_wipe_once_before_dealloc 4096 8 4096 true true _ (by decide)⟩

/-- C5: constructing a container with `new_with_mut` using an initializer that
writes the value `v` into the provided mutable reference, then reading the
secret back through a read-only guard obtained from `expose_secret`, yields
`v`, for every secret type with a default value. -/
theorem c5_new_with_mut_round_trip {S : Type} [Inhabited S] (v : S)
    (ctr : S → S) (h : ∀ s, ctr s = v) :
    (SecretBox.new_with_mut ctr).expose_secret.data = v := by
  simp only [SecretBox.new_with_mut, SecretBox.expose_secret, SecretGuard.new]
  exact h _

/-- C5 witness: the round trip at the secret type `Nat` with value 7. -/
theorem c5_new_with_mut_round_trip_witness :
    (∀ s : Nat, (fun _ : Nat => 7) s = 7) ∧
    (SecretBox.new_with_mut (fun _ : Nat => 7)).expose_secret.data = 7 :=
  ⟨fun _ => rfl,
   c5_new_with_mut_round_trip 7 (fun _ : Nat => 7) (fun _ => rfl)⟩

/-- C6: if the fallible constructor function returns an error `e`,
`try_new_with_ctr` returns exactly that error and produces no container (and
no secret value was built locally, so there is nothing to wipe); if it returns
a value `v`, `try_new_with_ctr` returns a container holding `v`, and the
local copy is wiped after being copied into the container. -/
theorem c6_try_new_with_ctr_spec {S E : Type} (ctr : Unit → Except E S) :
    (∀ e, ctr () = Except.error e →
      SecretBox.try_new_with_ctr ctr = Except.error e) ∧
    (∀ v, ctr () = Except.ok v →
      SecretBox.try_new_with_ctr ctr =
        Except.ok (SecretBox.new v,
          [CEvent.buildLocal, CEvent.pinAndCopy, CEvent.wipeLocal])) := by
  constructor
  · intro e he
    simp [SecretBox.try_new_with_ctr, he]
  · intro v hv
    simp [SecretBox.try_new_with_ctr, hv]

/-- C6 witness: the error path propagates the concrete error 3 with no
container produced, and the success path yields a container holding 5. -/
theorem c6_try_new_with_ctr_spec_witness :
    SecretBox.try_new_with_ctr (fun _ => (Except.error 3 : Except Nat Nat)) =
      Except.error 3 ∧
    SecretBox.try_new_with_ctr (fun _ => (Except.ok 5 : Except Nat Nat)) =
      Except.ok (SecretBox.new 5,
        [CEvent.buildLocal, CEvent.pinAndCopy, CEvent.wipeLocal]) :=
  ⟨(c6_try_new_with_ctr_spec (fun _ => (Except.error 3 : Except Nat Nat))).1
      3 rfl,
   (c6_try_new_with_ctr_spec (fun _ => (Except.ok 5 : Except Nat Nat))).2
      5 rfl⟩

/-- C8: for every secret type and any two containers holding any two values
of it, the `Debug` formatting produces the identical string
"SecretBox<T>([REDACTED])" built only from the type's name, never from the
secret's bytes (two-run noninterference). -/
theorem c8_debug_redacts {S : Type} (typeName : String)
    (sb1 sb2 : SecretBox S) :
    SecretBox.fmt typeName sb1 = SecretBox.fmt typeName sb2 ∧
    SecretBox.fmt typeName sb1 =
      "SecretBox<" ++ typeName ++ ">([REDACTED])" :=
  ⟨rfl, rfl⟩

/-- C9: `new_with_ctr` returns a container whose contained value equals the
value the constructor function produced, and the locally-built original is
wiped after being copied into the container (the wipe step follows the
pin-and-copy step in the construction trace) and before the call returns
(the wipe step is in the trace). -/
theorem c9_new_with_ctr_spec {S : Type} (ctr : Unit → S) :
    (SecretBox.new_with_ctr ctr).1.inner_secret = ctr () ∧
    (SecretBox.new_with_ctr ctr).2.findIdx CEvent.isPinAndCopy <
      (SecretBox.new_with_ctr ctr).2.findIdx CEvent.isWipeLocal ∧
    CEvent.wipeLocal ∈ (SecretBox.new_with_ctr ctr).2 :=
  ⟨rfl, by show (1 : Nat) < 2; decide, by simp [SecretBox.new_with_ctr]⟩

/-- C10: the derived `Debug` formatting of the guards emits the underlying
secret value's own `Debug` representation: at the secret type `Nat` (with its
decimal `Debug` formatting) the distinct values 1 and 2 yield guards that
format to different strings, each containing the value's digits — so the
container's redaction guarantee does not extend to the guards it mints. -/
theorem c10_guard_debug_leaks :
    (1 : Nat) ≠ 2 ∧
    SecretGuard.fmt toString (SecretGuard.new (1 : Nat)) ≠
      SecretGuard.fmt toString (SecretGuard.new (2 : Nat)) ∧
    (toString (1 : Nat)).data <:+:
      (SecretGuard.fmt toString (SecretGuard.new (1 : Nat))).data ∧
    (toString (2 : Nat)).data <:+:
      (SecretGuard.fmt toString (SecretGuard.new (2 : Nat))).data ∧
    SecretGuardMut.fmt toString (SecretGuardMut.new (1 : Nat)) ≠
      SecretGuardMut.fmt toString (SecretGuardMut.new (2 : Nat)) ∧
    (toString (1 : Nat)).data <:+:
      (SecretGuardMut.fmt toString (SecretGuardMut.new (1 : Nat))).data := by
  refine ⟨by decide, ?_, ?_, ?_, ?_, ?_⟩ <;> decide
